import Mathlib

/-!
Verification of the rectangular user-selection controller
(`src/components/UserSelection/index.tsx`) of this react-flow fork.

Screen- and canvas-space coordinates are modelled as rationals (`ℚ`), an
exact stand-in for the JS numbers on which the code performs only
subtraction, comparison, absolute value and division by the zoom factor.

The controller's helper functions `getNodesInside`, `getConnectedEdges`
and `getSelectionChanges` live in `src/utils/graph.ts` and
`src/utils/changes.ts`, which are not part of the provided sources; they
are modelled from the specification (sections 4.1 to 4.3) and marked as
such in their doc comments.  Everything else is translated directly from
`UserSelection/index.tsx`.
-/

namespace UserSelection

/-- A screen- or canvas-space rectangle `{x, y, width, height}`. -/
structure Rect where
  x : ℚ
  y : ℚ
  width : ℚ
  height : ℚ
deriving DecidableEq

/-- `SelectionRect = Rect & { startX, startY, draw }`
(`UserSelection/index.tsx`, lines 14-18).  `startX, startY` is the
mousedown anchor, `draw` the drawing flag. -/
structure SelectionRect where
  startX : ℚ
  startY : ℚ
  x : ℚ
  y : ℚ
  width : ℚ
  height : ℚ
  draw : Bool
deriving DecidableEq

/-- `initialRect` (`UserSelection/index.tsx`, lines 38-46): the
zero/non-drawing rectangle. -/
def initialRect : SelectionRect :=
  { startX := 0, startY := 0, x := 0, y := 0, width := 0, height := 0, draw := false }

/-- The `x`/`y`/`width`/`height` part of a `SelectionRect`. -/
def selRectToRect (r : SelectionRect) : Rect :=
  { x := r.x, y := r.y, width := r.width, height := r.height }

/-- An `XYPosition` as produced by `getMousePosition`. -/
structure XYPosition where
  x : ℚ
  y : ℚ
deriving DecidableEq

/-- The fields of the container's `DOMRect` that the controller reads
(`left` and `top`). -/
structure Bounds where
  left : ℚ
  top : ℚ
deriving DecidableEq

/-- `getMousePosition` (`UserSelection/index.tsx`, lines 26-31): the event's
client coordinates relative to the container bounds. -/
def getMousePosition (clientX clientY : ℚ) (containerBounds : Bounds) : XYPosition :=
  { x := clientX - containerBounds.left, y := clientY - containerBounds.top }

/-- The store's `transform` triple `[x, y, zoom]`: canvas coordinates map to
screen coordinates as `screen = canvas * zoom + translate`. -/
structure Transform where
  x : ℚ
  y : ℚ
  zoom : ℚ
deriving DecidableEq

/-- A node as the controller sees it: id, canvas position, optional measured
dimensions and the externally owned `selected` flag. -/
structure Node where
  id : String
  positionX : ℚ
  positionY : ℚ
  width : Option ℚ
  height : Option ℚ
  selected : Bool
deriving DecidableEq

/-- An edge: id, endpoint node ids and the externally owned `selected`
flag. -/
structure Edge where
  id : String
  source : String
  target : String
  selected : Bool
deriving DecidableEq

/-- A selection change record `{id, selected}` (spec section 3,
`SelectionChange`). -/
structure SelectionChange where
  id : String
  selected : Bool
deriving DecidableEq

/-- An axis-aligned box `[x1, x2] × [y1, y2]`. -/
structure Box where
  x1 : ℚ
  y1 : ℚ
  x2 : ℚ
  y2 : ℚ
deriving DecidableEq

/-- The box spanned by a rectangle. -/
def rectToBox (r : Rect) : Box :=
  { x1 := r.x, y1 := r.y, x2 := r.x + r.width, y2 := r.y + r.height }

/-- The bounding box of a node, `none` when either dimension is
unmeasured. -/
def nodeBox (n : Node) : Option Box :=
  match n.width, n.height with
  | some w, some h =>
      some { x1 := n.positionX, y1 := n.positionY, x2 := n.positionX + w, y2 := n.positionY + h }
  | _, _ => none

/-- Standard interval-overlap test on both axes: the boxes share a region of
positive extent. -/
def boxesOverlap (a b : Box) : Bool :=
  (max a.x1 b.x1 < min a.x2 b.x2) && (max a.y1 b.y1 < min a.y2 b.y2)

/-- `inner` lies entirely within `outer`. -/
def boxContained (inner outer : Box) : Bool :=
  (outer.x1 ≤ inner.x1) && (inner.x2 ≤ outer.x2) &&
  (outer.y1 ≤ inner.y1) && (inner.y2 ≤ outer.y2)

/-- Modelled from the spec: `toCanvasRect` (spec section 4.1) inverse-maps a
screen-space rectangle to canvas space; the body lives in the absent
`src/utils/graph.ts`. -/
def toCanvasRect (r : Rect) (t : Transform) : Rect :=
  { x := (r.x - t.x) / t.zoom
    y := (r.y - t.y) / t.zoom
    width := r.width / t.zoom
    height := r.height / t.zoom }

/-- The two hit-test modes of spec section 4.1. -/
inductive HitMode where
  | anyOverlap
  | fullContainment
deriving DecidableEq

/-- Modelled from the spec: `elementsInside` (spec section 4.1); the body
lives in the absent `src/utils/graph.ts`.  In `anyOverlap` mode any overlap
between the canvas rectangle and the element's bounding box qualifies; in
`fullContainment` mode the element's box must lie within the rectangle.
Elements lacking measured dimensions are always excluded. -/
def elementsInside (nodes : List Node) (canvasRect : Rect) (mode : HitMode) : List Node :=
  nodes.filter fun n =>
    match nodeBox n with
    | none => false
    | some b =>
        match mode with
        | .anyOverlap => boxesOverlap (rectToBox canvasRect) b
        | .fullContainment => boxContained b (rectToBox canvasRect)

/-- Modelled from the spec: `getNodesInside` as called from `onMouseMove`
(`UserSelection/index.tsx`, line 106); the body lives in the absent
`src/utils/graph.ts`.  Per spec section 4.4 the user-selection call converts
the rectangle to canvas space and runs the hit test in partial-overlap
mode. -/
def getNodesInside (nodes : List Node) (rect : SelectionRect) (t : Transform) : List Node :=
  elementsInside nodes (toCanvasRect (selRectToRect rect) t) .anyOverlap

/-- Modelled from the spec: `getConnectedEdges` (spec section 4.2); the body
lives in the absent `src/utils/graph.ts`.  Returns every edge with at least
one endpoint among the given nodes, preserving the edges' order. -/
def getConnectedEdges (nodes : List Node) (edges : List Edge) : List Edge :=
  let nodeIds := nodes.map Node.id
  edges.filter fun e => nodeIds.contains e.source || nodeIds.contains e.target

/-- Modelled from the spec: `getSelectionChanges` (spec section 4.3); the
body lives in the absent `src/utils/changes.ts`.  One change record per item
whose `selected` flag must flip, in the items' order.  The source function
is duck-typed over items carrying `id` and `selected`; here the two
projections are passed explicitly. -/
def getSelectionChanges (items : List α) (getId : α → String) (getSel : α → Bool)
    (selectedIds : List String) : List SelectionChange :=
  items.filterMap fun item =>
    let willBeSelected := selectedIds.contains (getId item)
    if !(getSel item) && willBeSelected then some { id := getId item, selected := true }
    else if getSel item && !willBeSelected then some { id := getId item, selected := false }
    else none

/-- The `selectionKeyCode` prop, `KeyCode | null | boolean`
(`UserSelection/index.tsx`, line 22): `onMouseMove` only distinguishes
`typeof selectionKeyCode === 'boolean'` from everything else. -/
inductive SelectionKeyCode where
  | boolCode (b : Bool)
  | keyGated
deriving DecidableEq

/-- The controller's mutable state: the selection rectangle, the two
previous-count refs, the cached container bounds, and the two store flags
the controller writes. -/
structure ControllerState where
  rect : SelectionRect
  prevSelectedNodesCount : Nat
  prevSelectedEdgesCount : Nat
  containerBounds : Option Bounds
  userSelectionActive : Bool
  nodesSelectionActive : Bool
deriving DecidableEq

/-- The state at mount: `initialRect`, zero counters, no cached bounds. -/
def initialState : ControllerState :=
  { rect := initialRect
    prevSelectedNodesCount := 0
    prevSelectedEdgesCount := 0
    containerBounds := none
    userSelectionActive := false
    nodesSelectionActive := false }

/-- `resetUserSelection` (`UserSelection/index.tsx`, lines 58-65): reset the
rectangle to `initialRect`, clear `userSelectionActive`, zero both counters.
The cached container bounds is not touched. -/
def resetUserSelection (st : ControllerState) : ControllerState :=
  { st with
    rect := initialRect
    userSelectionActive := false
    prevSelectedNodesCount := 0
    prevSelectedEdgesCount := 0 }

/-- `onMouseDown` (`UserSelection/index.tsx`, lines 67-85): capture the
container bounds, anchor the rectangle at the mouse position with zero size
and `draw := true`, set `userSelectionActive` and clear
`nodesSelectionActive`. -/
def onMouseDown (clientX clientY : ℚ) (reactFlowBounds : Bounds)
    (st : ControllerState) : ControllerState :=
  let mousePos := getMousePosition clientX clientY reactFlowBounds
  { st with
    containerBounds := some reactFlowBounds
    rect :=
      { width := 0
        height := 0
        startX := mousePos.x
        startY := mousePos.y
        x := mousePos.x
        y := mousePos.y
        draw := true }
    userSelectionActive := true
    nodesSelectionActive := false }

/-- `Math.abs` on rationals. -/
def rabs (q : ℚ) : ℚ := if q < 0 then -q else q

/-- The `nextUserSelectRect` computation of `onMouseMove`
(`UserSelection/index.tsx`, lines 96-102): min/abs normalization keeping
`startX`, `startY` and `draw` via the object spread. -/
def nextRectOf (rect : SelectionRect) (mousePos : XYPosition) : SelectionRect :=
  { rect with
    x := if mousePos.x < rect.startX then mousePos.x else rect.startX
    y := if mousePos.y < rect.startY then mousePos.y else rect.startY
    width := rabs (mousePos.x - rect.startX)
    height := rabs (mousePos.y - rect.startY) }

/-- The per-move inputs: the event's client coordinates, the
`selectionKeyPressed` prop and the store snapshot read by
`store.getState()`. -/
structure MoveInput where
  clientX : ℚ
  clientY : ℚ
  selectionKeyPressed : Bool
  nodes : List Node
  edges : List Edge
  transform : Transform

/-- The guard of `onMouseMove` (`UserSelection/index.tsx`, lines 88-90): in
boolean mode the move proceeds when drawing with captured bounds; in
key-gated mode the gating key must additionally still be pressed. -/
def moveGuard (cfg : SelectionKeyCode) (input : MoveInput) (st : ControllerState) : Bool :=
  match cfg with
  | .boolCode _ => st.rect.draw && st.containerBounds.isSome
  | .keyGated => input.selectionKeyPressed && st.rect.draw && st.containerBounds.isSome

/-- One category's count-guarded diff block of `onMouseMove`
(`UserSelection/index.tsx`, lines 110-124): when the stored previous count
differs from the new count, store the new count and compute the diff,
emitting it only when non-empty; otherwise do nothing. -/
def tick (items : List α) (getId : α → String) (getSel : α → Bool)
    (selectedIds : List String) (prevCount : Nat) : Nat × Option (List SelectionChange) :=
  if prevCount ≠ selectedIds.length then
    let changes := getSelectionChanges items getId getSel selectedIds
    (selectedIds.length, if changes.length ≠ 0 then some changes else none)
  else
    (prevCount, none)

/-- The node ids selected by a move's hit test, given the cached bounds. -/
def moveSelectedNodeIds (input : MoveInput) (st : ControllerState) (bounds : Bounds) :
    List String :=
  (getNodesInside input.nodes
      (nextRectOf st.rect (getMousePosition input.clientX input.clientY bounds))
      input.transform).map Node.id

/-- The edge ids selected by a move: ids of the edges connected to the
selected nodes. -/
def moveSelectedEdgeIds (input : MoveInput) (st : ControllerState) (bounds : Bounds) :
    List String :=
  (getConnectedEdges
      (getNodesInside input.nodes
        (nextRectOf st.rect (getMousePosition input.clientX input.clientY bounds))
        input.transform)
      input.edges).map Edge.id

/-- `onMouseMove` (`UserSelection/index.tsx`, lines 87-127).  Returns the
new controller state and the change batches handed to `onNodesChange` and
`onEdgesChange` (`none` when the handler was not called). -/
def onMouseMove (cfg : SelectionKeyCode) (input : MoveInput) (st : ControllerState) :
    ControllerState × Option (List SelectionChange) × Option (List SelectionChange) :=
  match st.containerBounds, moveGuard cfg input st with
  | some bounds, true =>
      let mousePos := getMousePosition input.clientX input.clientY bounds
      let nextRect := nextRectOf st.rect mousePos
      let selectedNodeIds := moveSelectedNodeIds input st bounds
      let selectedEdgeIds := moveSelectedEdgeIds input st bounds
      let nodeRes := tick input.nodes Node.id Node.selected selectedNodeIds
        st.prevSelectedNodesCount
      let edgeRes := tick input.edges Edge.id Edge.selected selectedEdgeIds
        st.prevSelectedEdgesCount
      ({ st with
          rect := nextRect
          prevSelectedNodesCount := nodeRes.1
          prevSelectedEdgesCount := edgeRes.1 },
        nodeRes.2, edgeRes.2)
  | _, _ => (st, none, none)

/-- `onMouseUp` (`UserSelection/index.tsx`, lines 129-133): set
`nodesSelectionActive` to whether the last recorded node count was positive,
then reset. -/
def onMouseUp (st : ControllerState) : ControllerState :=
  resetUserSelection { st with nodesSelectionActive := decide (0 < st.prevSelectedNodesCount) }

/-- `onMouseLeave` (`UserSelection/index.tsx`, lines 135-139): clear
`nodesSelectionActive` unconditionally, then reset. -/
def onMouseLeave (st : ControllerState) : ControllerState :=
  resetUserSelection { st with nodesSelectionActive := false }

/-- The pointer events the selection pane handles. -/
inductive Event where
  | down (clientX clientY : ℚ) (reactFlowBounds : Bounds)
  | move (input : MoveInput)
  | up
  | leave

/-- One transition of the controller. -/
def step (cfg : SelectionKeyCode) (st : ControllerState) (e : Event) : ControllerState :=
  match e with
  | .down cx cy b => onMouseDown cx cy b st
  | .move input => (onMouseMove cfg input st).1
  | .up => onMouseUp st
  | .leave => onMouseLeave st

/-- The controller state after a sequence of pointer events from mount. -/
def run (cfg : SelectionKeyCode) (es : List Event) : ControllerState :=
  es.foldl (step cfg) initialState

/-! ### Helper lemmas -/

/-- `rabs` is Mathlib's absolute value. -/
theorem rabs_eq_abs (q : ℚ) : rabs q = |q| := by
  unfold rabs
  rcases lt_or_le q 0 with h | h
  · rw [if_pos h, abs_of_neg h]
  · rw [if_neg (not_lt.mpr h), abs_of_nonneg h]

/-- `rabs` is nonnegative. -/
theorem rabs_nonneg (q : ℚ) : 0 ≤ rabs q := by
  unfold rabs
  split
  · linarith
  · linarith [not_lt.mp (by assumption)]

/-- The conditional used by `onMouseMove` computes a minimum. -/
theorem ite_lt_eq_min (a b : ℚ) : (if a < b then a else b) = min b a := by
  rcases lt_or_le a b with h | h
  · rw [if_pos h, min_eq_right h.le]
  · rw [if_neg (not_lt.mpr h), min_eq_left h]

/-- Without cached container bounds the move guard fails. -/
theorem moveGuard_eq_false_of_none (cfg : SelectionKeyCode) (input : MoveInput)
    (st : ControllerState) (hb : st.containerBounds = none) :
    moveGuard cfg input st = false := by
  unfold moveGuard
  cases cfg <;> simp [hb]

/-- When its guard fails, `onMouseMove` is a no-op with no emissions. -/
theorem onMouseMove_skip (cfg : SelectionKeyCode) (input : MoveInput)
    (st : ControllerState) (hg : moveGuard cfg input st = false) :
    onMouseMove cfg input st = (st, none, none) := by
  unfold onMouseMove
  rw [hg]
  cases st.containerBounds <;> rfl

/-- When the guard passes (with the cached bounds), `onMouseMove` updates the
rectangle and runs the two count-guarded diff blocks. -/
theorem onMouseMove_of_guard (cfg : SelectionKeyCode) (input : MoveInput)
    (st : ControllerState) (bounds : Bounds)
    (hb : st.containerBounds = some bounds) (hg : moveGuard cfg input st = true) :
    onMouseMove cfg input st =
      ({ st with
          rect := nextRectOf st.rect (getMousePosition input.clientX input.clientY bounds)
          prevSelectedNodesCount := (tick input.nodes Node.id Node.selected
            (moveSelectedNodeIds input st bounds) st.prevSelectedNodesCount).1
          prevSelectedEdgesCount := (tick input.edges Edge.id Edge.selected
            (moveSelectedEdgeIds input st bounds) st.prevSelectedEdgesCount).1 },
        (tick input.nodes Node.id Node.selected (moveSelectedNodeIds input st bounds)
          st.prevSelectedNodesCount).2,
        (tick input.edges Edge.id Edge.selected (moveSelectedEdgeIds input st bounds)
          st.prevSelectedEdgesCount).2) := by
  unfold onMouseMove
  rw [hb, hg]

/-! ### Claims -/

/-- Claim C6: on pointer-release while drawing, `nodesSelectionActive` is set
to true exactly when the last recorded selected-node count is positive, and
the controller resets: the rectangle returns to the zero/non-drawing value,
`userSelectionActive` becomes false and both previous-count counters become
zero. -/
theorem c6_mouseup_flag_and_reset (st : ControllerState) :
    (onMouseUp st).nodesSelectionActive = decide (0 < st.prevSelectedNodesCount) ∧
    (onMouseUp st).rect = initialRect ∧
    (onMouseUp st).userSelectionActive = false ∧
    (onMouseUp st).prevSelectedNodesCount = 0 ∧
    (onMouseUp st).prevSelectedEdgesCount = 0 :=
  ⟨rfl, rfl, rfl, rfl, rfl⟩

/-- Claim C9: every pointer-press sets `userSelectionActive` to true and
`nodesSelectionActive` to false. -/
theorem c9_mousedown_flags (clientX clientY : ℚ) (b : Bounds) (st : ControllerState) :
    (onMouseDown clientX clientY b st).userSelectionActive = true ∧
    (onMouseDown clientX clientY b st).nodesSelectionActive = false :=
  ⟨rfl, rfl⟩

/-- Claim C10: a pointer-move never writes the two external boolean flags:
`userSelectionActive` and `nodesSelectionActive` are unchanged across any
move, whether or not the guard passes. -/
theorem c10_move_preserves_flags (cfg : SelectionKeyCode) (input : MoveInput)
    (st : ControllerState) :
    (onMouseMove cfg input st).1.userSelectionActive = st.userSelectionActive ∧
    (onMouseMove cfg input st).1.nodesSelectionActive = st.nodesSelectionActive := by
  unfold onMouseMove
  cases hb : st.containerBounds with
  | none => exact ⟨rfl, rfl⟩
  | some bounds =>
      cases hg : moveGuard cfg input st with
      | false => exact ⟨rfl, rfl⟩
      | true => exact ⟨rfl, rfl⟩

/-- A drawing state with one recorded selected node and cached bounds. -/
def c1State : ControllerState :=
  { rect := { startX := 0, startY := 0, x := 0, y := 0, width := 5, height := 5, draw := true }
    prevSelectedNodesCount := 1
    prevSelectedEdgesCount := 0
    containerBounds := some { left := 0, top := 0 }
    userSelectionActive := true
    nodesSelectionActive := false }

/-- Claim C1 counterexample: in a drawing state whose last recorded
selected-node count is 1 (> 0), a pointer-leave sets `nodesSelectionActive`
to false, not true — `onMouseLeave` clears the flag unconditionally. -/
theorem c1_counterexample :
    c1State.rect.draw = true ∧ 0 < c1State.prevSelectedNodesCount ∧
    (onMouseLeave c1State).nodesSelectionActive = false :=
  ⟨rfl, Nat.one_pos, rfl⟩

/-- Claim C1 amended: on pointer-leave the controller sets
`nodesSelectionActive` to false unconditionally (regardless of the last
recorded count) and resets: the rectangle returns to the zero/non-drawing
value, `userSelectionActive` becomes false and both counters become zero. -/
theorem c1_amended_leave_clears_flag (st : ControllerState) :
    (onMouseLeave st).nodesSelectionActive = false ∧
    (onMouseLeave st).rect = initialRect ∧
    (onMouseLeave st).userSelectionActive = false ∧
    (onMouseLeave st).prevSelectedNodesCount = 0 ∧
    (onMouseLeave st).prevSelectedEdgesCount = 0 :=
  ⟨rfl, rfl, rfl, rfl, rfl⟩

/-- A drawing state with cached container bounds `{left := 3, top := 4}`. -/
def c7State : ControllerState :=
  { rect := { startX := 1, startY := 1, x := 1, y := 1, width := 4, height := 4, draw := true }
    prevSelectedNodesCount := 1
    prevSelectedEdgesCount := 0
    containerBounds := some { left := 3, top := 4 }
    userSelectionActive := true
    nodesSelectionActive := false }

/-- Claim C7 counterexample: after both Drawing → Idle transitions from a
drawing state with cached bounds `{left := 3, top := 4}`, the cached
container bounds still holds that value — `resetUserSelection` never clears
it. -/
theorem c7_counterexample :
    c7State.rect.draw = true ∧
    (onMouseUp c7State).containerBounds = some { left := 3, top := 4 } ∧
    (onMouseLeave c7State).containerBounds = some { left := 3, top := 4 } :=
  ⟨rfl, rfl, rfl⟩

/-- Claim C7 amended: the Drawing → Idle transitions (pointer-release and
pointer-leave) leave the cached container bounds untouched; the stale value
persists until the next pointer-press overwrites it. -/
theorem c7_amended_bounds_retained (st : ControllerState) :
    (onMouseUp st).containerBounds = st.containerBounds ∧
    (onMouseLeave st).containerBounds = st.containerBounds :=
  ⟨rfl, rfl⟩

/-- Claim C2: the hit test invoked on every processed pointer-move selects a
node of the snapshot exactly when it has measured dimensions and its
bounding box overlaps the canvas-space rectangle on both axes by a positive
amount — any overlap qualifies, full containment is not required, and
unmeasured nodes are always excluded. -/
theorem c2_partial_overlap_hit_test (nodes : List Node) (rect : SelectionRect)
    (t : Transform) (n : Node) :
    n ∈ getNodesInside nodes rect t ↔
      n ∈ nodes ∧ ∃ w h, n.width = some w ∧ n.height = some h ∧
        max (toCanvasRect (selRectToRect rect) t).x n.positionX <
          min ((toCanvasRect (selRectToRect rect) t).x +
            (toCanvasRect (selRectToRect rect) t).width) (n.positionX + w) ∧
        max (toCanvasRect (selRectToRect rect) t).y n.positionY <
          min ((toCanvasRect (selRectToRect rect) t).y +
            (toCanvasRect (selRectToRect rect) t).height) (n.positionY + h) := by
  unfold getNodesInside elementsInside
  rw [List.mem_filter]
  constructor
  · rintro ⟨hmem, hdec⟩
    refine ⟨hmem, ?_⟩
    cases hw : n.width with
    | none => rw [nodeBox, hw] at hdec; simp at hdec
    | some w =>
        cases hh : n.height with
        | none => rw [nodeBox, hw, hh] at hdec; simp at hdec
        | some h =>
            rw [nodeBox, hw, hh] at hdec
            simp only [boxesOverlap, rectToBox, Bool.and_eq_true, decide_eq_true_eq] at hdec
            exact ⟨w, h, rfl, rfl, hdec.1, hdec.2⟩
  · rintro ⟨hmem, w, h, hw, hh, hx, hy⟩
    refine ⟨hmem, ?_⟩
    rw [nodeBox, hw, hh]
    simp only [boxesOverlap, rectToBox, Bool.and_eq_true, decide_eq_true_eq]
    exact ⟨hx, hy⟩

/-- Claim C3: on a pointer-move, whenever a category's freshly computed
selected-id count equals the stored previous count, no change batch is
emitted for that category and the stored count is unchanged — separately for
the node category and the edge category, and even when the set's membership
changed. -/
theorem c3_count_shortcut (cfg : SelectionKeyCode) (input : MoveInput)
    (st : ControllerState) (bounds : Bounds) (hb : st.containerBounds = some bounds) :
    ((moveSelectedNodeIds input st bounds).length = st.prevSelectedNodesCount →
      (onMouseMove cfg input st).2.1 = none ∧
      (onMouseMove cfg input st).1.prevSelectedNodesCount = st.prevSelectedNodesCount) ∧
    ((moveSelectedEdgeIds input st bounds).length = st.prevSelectedEdgesCount →
      (onMouseMove cfg input st).2.2 = none ∧
      (onMouseMove cfg input st).1.prevSelectedEdgesCount = st.prevSelectedEdgesCount) := by
  cases hg : moveGuard cfg input st with
  | false =>
      rw [onMouseMove_skip cfg input st hg]
      exact ⟨fun _ => ⟨rfl, rfl⟩, fun _ => ⟨rfl, rfl⟩⟩
  | true =>
      rw [onMouseMove_of_guard cfg input st bounds hb hg]
      constructor
      · intro h
        constructor
        · show (tick input.nodes Node.id Node.selected
            (moveSelectedNodeIds input st bounds) st.prevSelectedNodesCount).2 = none
          rw [tick, if_neg (by rw [h]; exact fun hne => hne rfl)]
        · show (tick input.nodes Node.id Node.selected
            (moveSelectedNodeIds input st bounds) st.prevSelectedNodesCount).1
              = st.prevSelectedNodesCount
          rw [tick, if_neg (by rw [h]; exact fun hne => hne rfl)]
      · intro h
        constructor
        · show (tick input.edges Edge.id Edge.selected
            (moveSelectedEdgeIds input st bounds) st.prevSelectedEdgesCount).2 = none
          rw [tick, if_neg (by rw [h]; exact fun hne => hne rfl)]
        · show (tick input.edges Edge.id Edge.selected
            (moveSelectedEdgeIds input st bounds) st.prevSelectedEdgesCount).1
              = st.prevSelectedEdgesCount
          rw [tick, if_neg (by rw [h]; exact fun hne => hne rfl)]

/-- A drawing state for exercising the count shortcut: node count 1 already
recorded, anchor at `(95, 95)`. -/
def c3State : ControllerState :=
  { rect := { startX := 95, startY := 95, x := 95, y := 95, width := 0, height := 0
              draw := true }
    prevSelectedNodesCount := 1
    prevSelectedEdgesCount := 0
    containerBounds := some { left := 0, top := 0 }
    userSelectionActive := true
    nodesSelectionActive := false }

/-- A move to `(115, 115)` over a snapshot where node `a` (previously
selected, now outside the rectangle) and node `b` (inside it) swap
membership at equal count. -/
def c3Input : MoveInput :=
  { clientX := 115
    clientY := 115
    selectionKeyPressed := true
    nodes :=
      [ { id := "a", positionX := 0, positionY := 0, width := some 10, height := some 10
          selected := true },
        { id := "b", positionX := 100, positionY := 100, width := some 10, height := some 10
          selected := false } ]
    edges := []
    transform := { x := 0, y := 0, zoom := 1 } }

/-- Claim C3 witness: the move selects exactly `b` while `a` was the
previously selected node, so membership changed at constant count 1: no node
batch and no edge batch is emitted and both stored counts are unchanged. -/
theorem c3_count_shortcut_witness :
    moveSelectedNodeIds c3Input c3State { left := 0, top := 0 } = ["b"] ∧
    ((onMouseMove (SelectionKeyCode.boolCode true) c3Input c3State).2.1 = none ∧
      (onMouseMove (SelectionKeyCode.boolCode true) c3Input c3State).1.prevSelectedNodesCount
        = c3State.prevSelectedNodesCount) ∧
    ((onMouseMove (SelectionKeyCode.boolCode true) c3Input c3State).2.2 = none ∧
      (onMouseMove (SelectionKeyCode.boolCode true) c3Input c3State).1.prevSelectedEdgesCount
        = c3State.prevSelectedEdgesCount) := by
  have hc := c3_count_shortcut (SelectionKeyCode.boolCode true) c3Input c3State
    { left := 0, top := 0 } rfl
  have hids : moveSelectedNodeIds c3Input c3State { left := 0, top := 0 } = ["b"] := by
    norm_num [moveSelectedNodeIds, getNodesInside, elementsInside, toCanvasRect, selRectToRect,
      nextRectOf, getMousePosition, nodeBox, boxesOverlap, rectToBox, rabs, c3Input, c3State,
      min_def, max_def]
  exact ⟨hids, hc.1 (by rw [hids]; rfl), hc.2 rfl⟩

/-- Claim C4: on a processed pointer-move the rectangle is normalized: its
corner is the componentwise minimum of the anchor and the current point, its
extent the componentwise absolute difference, and the anchor `startX`,
`startY` is unchanged — in all four drag quadrants. -/
theorem c4_rect_normalization (cfg : SelectionKeyCode) (input : MoveInput)
    (st : ControllerState) (bounds : Bounds)
    (hb : st.containerBounds = some bounds) (hg : moveGuard cfg input st = true) :
    (onMouseMove cfg input st).1.rect.x
        = min st.rect.startX (input.clientX - bounds.left) ∧
    (onMouseMove cfg input st).1.rect.y
        = min st.rect.startY (input.clientY - bounds.top) ∧
    (onMouseMove cfg input st).1.rect.width
        = |(input.clientX - bounds.left) - st.rect.startX| ∧
    (onMouseMove cfg input st).1.rect.height
        = |(input.clientY - bounds.top) - st.rect.startY| ∧
    (onMouseMove cfg input st).1.rect.startX = st.rect.startX ∧
    (onMouseMove cfg input st).1.rect.startY = st.rect.startY := by
  rw [onMouseMove_of_guard cfg input st bounds hb hg]
  exact ⟨ite_lt_eq_min _ _, ite_lt_eq_min _ _, rabs_eq_abs _, rabs_eq_abs _, rfl, rfl⟩

/-- A drawing state anchored at `(3, 4)` with cached zero bounds. -/
def c4State : ControllerState :=
  { rect := { startX := 3, startY := 4, x := 3, y := 4, width := 0, height := 0, draw := true }
    prevSelectedNodesCount := 0
    prevSelectedEdgesCount := 0
    containerBounds := some { left := 0, top := 0 }
    userSelectionActive := true
    nodesSelectionActive := false }

/-- A move to client point `(1, 9)`: left of and below the anchor. -/
def c4Input : MoveInput :=
  { clientX := 1, clientY := 9, selectionKeyPressed := true
    nodes := [], edges := [], transform := { x := 0, y := 0, zoom := 1 } }

/-- Claim C4 witness: the normalization theorem applied at the concrete drag
from anchor `(3, 4)` to `(1, 9)`. -/
theorem c4_rect_normalization_witness :
    (onMouseMove (SelectionKeyCode.boolCode true) c4Input c4State).1.rect.x
        = min c4State.rect.startX (c4Input.clientX - (0 : ℚ)) ∧
    (onMouseMove (SelectionKeyCode.boolCode true) c4Input c4State).1.rect.y
        = min c4State.rect.startY (c4Input.clientY - (0 : ℚ)) ∧
    (onMouseMove (SelectionKeyCode.boolCode true) c4Input c4State).1.rect.width
        = |(c4Input.clientX - (0 : ℚ)) - c4State.rect.startX| ∧
    (onMouseMove (SelectionKeyCode.boolCode true) c4Input c4State).1.rect.height
        = |(c4Input.clientY - (0 : ℚ)) - c4State.rect.startY| ∧
    (onMouseMove (SelectionKeyCode.boolCode true) c4Input c4State).1.rect.startX
        = c4State.rect.startX ∧
    (onMouseMove (SelectionKeyCode.boolCode true) c4Input c4State).1.rect.startY
        = c4State.rect.startY :=
  c4_rect_normalization (SelectionKeyCode.boolCode true) c4Input c4State
    { left := 0, top := 0 } rfl rfl

/-- Claim C5: a pointer-move is a complete no-op — state unchanged, no
change batch, no flag write — whenever the container bounds were never
captured, or the rectangle is not in drawing state, or, in key-gated mode,
the gating key is no longer held. -/
theorem c5_move_ignored (cfg : SelectionKeyCode) (input : MoveInput)
    (st : ControllerState)
    (h : st.containerBounds = none ∨ st.rect.draw = false ∨
      (cfg = SelectionKeyCode.keyGated ∧ input.selectionKeyPressed = false)) :
    onMouseMove cfg input st = (st, none, none) := by
  apply onMouseMove_skip
  unfold moveGuard
  rcases h with h | h | ⟨hc, hk⟩
  · cases cfg <;> simp [h]
  · cases cfg <;> simp [h]
  · subst hc
    simp [hk]

/-- A move event arriving at mount. -/
def c5Input : MoveInput :=
  { clientX := 7, clientY := 8, selectionKeyPressed := false
    nodes := [], edges := [], transform := { x := 0, y := 0, zoom := 1 } }

/-- Claim C5 witness: at mount (no cached bounds, not drawing) a move is
ignored. -/
theorem c5_move_ignored_witness :
    onMouseMove (SelectionKeyCode.boolCode true) c5Input initialState
      = (initialState, none, none) :=
  c5_move_ignored (SelectionKeyCode.boolCode true) c5Input initialState (Or.inl rfl)

/-- The spec's rectangle invariant: nonnegative extent and a corner that
never passes the anchor. -/
def rectInvariant (r : SelectionRect) : Prop :=
  0 ≤ r.width ∧ 0 ≤ r.height ∧ r.x ≤ r.startX ∧ r.y ≤ r.startY

/-- The zero rectangle satisfies the invariant. -/
theorem rectInvariant_initialRect : rectInvariant initialRect :=
  ⟨le_refl 0, le_refl 0, le_refl 0, le_refl 0⟩

/-- The move normalization establishes the invariant outright. -/
theorem rectInvariant_nextRectOf (r : SelectionRect) (p : XYPosition) :
    rectInvariant (nextRectOf r p) := by
  refine ⟨rabs_nonneg _, rabs_nonneg _, ?_, ?_⟩
  · show (if p.x < r.startX then p.x else r.startX) ≤ r.startX
    split
    · exact le_of_lt (by assumption)
    · exact le_refl _
  · show (if p.y < r.startY then p.y else r.startY) ≤ r.startY
    split
    · exact le_of_lt (by assumption)
    · exact le_refl _

/-- Every transition preserves the rectangle invariant. -/
theorem step_rectInvariant (cfg : SelectionKeyCode) (st : ControllerState) (e : Event)
    (h : rectInvariant st.rect) : rectInvariant (step cfg st e).rect := by
  cases e with
  | down cx cy b => exact ⟨le_refl 0, le_refl 0, le_refl _, le_refl _⟩
  | move input =>
      cases hb : st.containerBounds with
      | none =>
          show rectInvariant (onMouseMove cfg input st).1.rect
          rw [onMouseMove_skip cfg input st (moveGuard_eq_false_of_none cfg input st hb)]
          exact h
      | some bounds =>
          cases hg : moveGuard cfg input st with
          | false =>
              show rectInvariant (onMouseMove cfg input st).1.rect
              rw [onMouseMove_skip cfg input st hg]
              exact h
          | true =>
              show rectInvariant (onMouseMove cfg input st).1.rect
              rw [onMouseMove_of_guard cfg input st bounds hb hg]
              exact rectInvariant_nextRectOf _ _
  | up => exact rectInvariant_initialRect
  | leave => exact rectInvariant_initialRect

/-- The invariant holds along any fold of transitions. -/
theorem foldl_step_rectInvariant (cfg : SelectionKeyCode) (es : List Event)
    (st : ControllerState) (h : rectInvariant st.rect) :
    rectInvariant ((es.foldl (step cfg) st).rect) := by
  induction es generalizing st with
  | nil => exact h
  | cons e es ih => exact ih _ (step_rectInvariant cfg st e h)

/-- Claim C8: in every reachable controller state — after any sequence of
pointer events from mount — the selection rectangle has nonnegative width
and height and its corner `(x, y)` never passes the anchor
`(startX, startY)`. -/
theorem c8_rect_invariant (cfg : SelectionKeyCode) (es : List Event) :
    rectInvariant (run cfg es).rect :=
  foldl_step_rectInvariant cfg es initialState rectInvariant_initialRect

end UserSelection
